import Mathlib

/-!
Verification development for `src/utils/data_utils.py` of the CADet
repository: the comparison-set loader builders (MMD / CADeT test-set
construction in `CIFARDataModule` and `ImageNetDataModule`) and the
attack-and-restore pipeline (`AttackDataset`, `DatasetAttacker`,
`DatasetAttacker_NoResize`).

The embedding is shallow: each Python function relevant to the claims is
translated to an executable Lean definition.  External collaborators whose
code is not in the repository (torch `RandomSampler`, pytorch-lightning
`CombinedLoader`, PIL image primitives) are modelled from the spec where a
claim depends on their behaviour; each such definition carries a doc
comment starting with `Modelled from the spec:`.
-/

namespace DataUtils

/-! ## CIFAR10_1 (`src/utils/data_utils.py` lines 19-31)

`__getitem__` fetches `self.data[index]`, applies the optional transform,
and returns `sample, 10`.  The transform may change the sample's type
(e.g. ndarray to tensor), so the returned sample is a sum. -/

structure CIFAR10_1 (α β : Type) where
  transform : Option (α → β)
  data : List α

def CIFAR10_1.length (ds : CIFAR10_1 α β) : Nat := ds.data.length

def CIFAR10_1.getitem (ds : CIFAR10_1 α β) (index : Nat) :
    Option ((α ⊕ β) × Nat) :=
  (ds.data[index]?).map (fun sample =>
    match ds.transform with
    | some t => (Sum.inr (t sample), 10)
    | none => (Sum.inl sample, 10))

/-! ## Sampler and loader configurations

The MMD/CADeT branches of `test_dataloader` build `RandomSampler`s and
`DataLoader`s; the configuration data that the claims are about (draw
counts, replacement flags, batch sizes) is embedded as plain records,
transcribed from the constructor calls. -/

structure SamplerCfg where
  replacement : Bool
  num_samples : Nat
  deriving Repr, DecidableEq

structure LoaderCfg where
  batch_size : Nat
  sampler : SamplerCfg
  deriving Repr, DecidableEq

/-- The two MMD streams, keyed `s` (reference) and `q` (query). -/
structure MMDLoaders where
  s : LoaderCfg
  q : LoaderCfg
  deriving Repr, DecidableEq

/-- Python `max` over a list: fails (raises) on an empty list, hence
`Option`. -/
def pymax (l : List Nat) : Option Nat := l.max?

/-- `CIFARDataModule.test_dataloader`, `mode == 'mmd'` branch
(lines 86-96): `batch_size = max(mmd_sample_sizes)`,
`num_samples = batch_size * mmd_n_tests`; the `s` sampler draws
`3*num_samples` with replacement at batch size `batch_size*3`, the `q`
sampler draws `num_samples` with replacement at batch size `batch_size`. -/
def cifarMMDTestLoaders (mmd_sample_sizes : List Nat) (mmd_n_tests : Nat) :
    Option MMDLoaders :=
  (pymax mmd_sample_sizes).map (fun batch_size =>
    let num_samples := batch_size * mmd_n_tests
    { s := { batch_size := batch_size * 3
             sampler := { replacement := true, num_samples := 3 * num_samples } }
      q := { batch_size := batch_size
             sampler := { replacement := true, num_samples := num_samples } } })

/-- `ImageNetDataModule.test_dataloader`, `mode == 'mmd'` branch
(lines 202-215): both samplers draw `3*num_samples` with replacement and
both loaders use batch size `batch_size*3`. -/
def imagenetMMDTestLoaders (mmd_sample_sizes : List Nat) (mmd_n_tests : Nat) :
    Option MMDLoaders :=
  (pymax mmd_sample_sizes).map (fun batch_size =>
    let num_samples := batch_size * mmd_n_tests
    { s := { batch_size := batch_size * 3
             sampler := { replacement := true, num_samples := 3 * num_samples } }
      q := { batch_size := batch_size * 3
             sampler := { replacement := true, num_samples := 3 * num_samples } } })

/-- `ImageNetDataModule.test_dataloader`, `mode == 'cadet'` branch
(lines 217-231): six streams, each with a `RandomSampler` with
`replacement=False` drawing `cadet_n_tests` samples, batch size 1. -/
def imagenetCADeTTestLoaders (cadet_n_tests : Nat) :
    List (String × LoaderCfg) :=
  let cfg : LoaderCfg :=
    { batch_size := 1
      sampler := { replacement := false, num_samples := cadet_n_tests } }
  [("imagenet", cfg), ("imagenet_o", cfg), ("inaturalist", cfg),
   ("pgd", cfg), ("cw", cfg), ("fgsm", cfg)]

/-! ## Lockstep combined loader (claim C2)

`test_dataloader` returns `CombinedLoader({...})` in the MMD and CADeT
branches (lines 96, 215, 230-231).  `CombinedLoader` is external library
code, so its iteration semantics are modelled from the spec. -/

/-- Length of the shortest stream in a list of named batch streams. -/
def minStreamLen {β : Type} : List (String × List β) → Nat
  | [] => 0
  | [s] => s.2.length
  | s :: t :: rest => min s.2.length (minStreamLen (t :: rest))

/-- Modelled from the spec: the combined multi-source iterator
(pytorch-lightning `CombinedLoader`, not part of this repository).  It
yields one group per step; each group pairs every stream name with that
stream's batch at the current step, and iteration terminates when the
shortest stream is exhausted. -/
def combinedLoaderGroups {β : Type} (streams : List (String × List β)) :
    List (List (String × β)) :=
  (List.range (minStreamLen streams)).map (fun i =>
    streams.filterMap (fun s => (s.2[i]?).map (fun b => (s.1, b))))

/-! ## Sampler draws (claims C3 and C8)

The sampler objects built in `test_dataloader` and
`DatasetAttacker.attack` are torch `RandomSampler`s — external library
code — so the draw itself is modelled from the spec's
`Sampler.draw(n, with_replacement)` contract.  The random source is
modelled as a permutation `perm` of the collection's indices. -/

/-- Modelled from the spec: error taxonomy of the sampler abstraction. -/
inductive SamplingError where
  | insufficientSamples
  deriving Repr, DecidableEq

/-- Modelled from the spec: a without-replacement draw of `count` indices
from a collection whose indices are shuffled into `perm` by the random
source.  Requesting more samples than the collection holds fails with
`InsufficientSamplesError`; otherwise the draw is a prefix of the
shuffle, so no index repeats. -/
def drawWithoutReplacement (perm : List Nat) (count : Nat) :
    Except SamplingError (List Nat) :=
  if perm.length < count then .error .insufficientSamples
  else .ok (perm.take count)

/-- Index selection of `DatasetAttacker.attack` /
`DatasetAttacker_NoResize.attack` (lines 264-266 and 309-311):
`sampler = None if num_samples is None else RandomSampler(self.dataset,
num_samples=num_samples)`, and the loader is built with `shuffle=False`.
Modelled from the spec for the parts decided by the external loader:
with `sampler=None` and `shuffle=False` indices are visited sequentially
in collection order; `RandomSampler` with its default
`replacement=False` draws without replacement, modelled as a prefix of
the permutation `perm` supplied by the random source. -/
def attackSelectIndices (perm : List Nat) (n : Nat)
    (num_samples : Option Nat) : List Nat :=
  match num_samples with
  | none => List.range n
  | some k => perm.take k

/-! ## Images, tensors and the filesystem (claims C5-C7)

Pixel content and encode/decode are external primitives (PIL, torch); an
image is modelled as its pixel size together with an opaque payload. -/

structure Img where
  size : Nat × Nat
  pix : List Nat
  deriving Repr, DecidableEq

/-- Modelled from the spec: PIL `Image.resize` (external primitive)
returns an image of exactly the requested size; the resampled pixel
content is outside the model. -/
def Img.resize (im : Img) (s : Nat × Nat) : Img :=
  { size := s, pix := im.pix }

/-- Modelled from the spec: `T.ToTensor` converts an image to a dense
tensor, preserving pixel dimensions. -/
def toTensor (im : Img) : Img := im

/-- Modelled from the spec: `T.ToPILImage` converts a tensor back to an
image, preserving pixel dimensions. -/
def toPILImage (im : Img) : Img := im

/-- `DatasetAttacker.pre_attack_transform` (lines 259-260):
`T.Compose([T.Resize(size=input_size, antialias=True), T.ToTensor()])`. -/
def preAttackTransform (input_size : Nat × Nat) (im : Img) : Img :=
  toTensor (im.resize input_size)

/-- A flat filesystem model: files keyed by full path, plus the set of
directories that have been created. -/
structure FileSystem where
  files : List (String × Img)
  dirs : List String
  deriving Repr, DecidableEq

def FileSystem.readFile (fs : FileSystem) (p : String) : Option Img :=
  (fs.files.find? (fun e => e.1 == p)).map (fun e => e.2)

/-- Writing a file: any pre-existing file at the same path is replaced
silently. -/
def FileSystem.writeFile (fs : FileSystem) (p : String) (x : Img) :
    FileSystem :=
  { fs with files := (p, x) :: fs.files.filter (fun e => !(e.1 == p)) }

/-- `os.makedirs(path, exist_ok=True)`: creates the directory if absent
and is a no-op (no error) when it already exists. -/
def FileSystem.makedirs (fs : FileSystem) (p : String) : FileSystem :=
  if p ∈ fs.dirs then fs else { fs with dirs := p :: fs.dirs }

/-- `os.path.join` for the two-argument uses in `save`. -/
def pathJoin (a b : String) : String := a ++ "/" ++ b

/-! ## AttackDataset (defined twice in the source: lines 238-251 and
lines 284-297)

`ImageFolder`'s directory scan is external; its results (`samples`,
`class_to_idx`, `loader`) are fields of the model. -/

structure AttackDataset where
  samples : List (String × Nat)
  class_to_idx : List (String × Nat)
  loader : String → Img
  transform : Option (Img → Img)

/-- `re.split("/|\\\\", path)[-1]`: the last component of the path after
splitting on forward and backward slashes. -/
def image_name_of (path : String) : String :=
  (path.split (fun c => c == '/' || c == '\\')).getLastD path

/-- `self.idx_to_class = {v: k for k, v in self.class_to_idx.items()}`
followed by a lookup `self.idx_to_class[label]` (first definition,
line 241).  Python dict comprehension semantics: for duplicate keys the
last binding wins; a missing key raises (`Option`). -/
def AttackDataset.idx_to_class (ds : AttackDataset) (k : Nat) :
    Option String :=
  (((ds.class_to_idx.map (fun p => (p.2, p.1))).reverse.find?
      (fun p => p.1 == k)).map (fun p => p.2))

/-- `AttackDataset.__getitem__`, first definition (lines 243-251):
fetch `(path, target)` from `samples`, decode the image, record its
native size BEFORE the transform, take the file name as the last path
component, then apply the optional transform. -/
def AttackDataset.getitem (ds : AttackDataset) (index : Nat) :
    Option (Img × Nat × (Nat × Nat) × String) :=
  (ds.samples[index]?).map (fun pt =>
    let path := pt.1
    let target := pt.2
    let sample := ds.loader path
    let image_size := sample.size
    let image_name := image_name_of path
    let sample := match ds.transform with
      | some t => t sample
      | none => sample
    (sample, target, image_size, image_name))

/-- `idx_to_class` of the second `AttackDataset` definition (line 287),
transcribed from its own source lines. -/
def AttackDataset.idx_to_class₂ (ds : AttackDataset) (k : Nat) :
    Option String :=
  (((ds.class_to_idx.map (fun p => (p.2, p.1))).reverse.find?
      (fun p => p.1 == k)).map (fun p => p.2))

/-- `AttackDataset.__getitem__`, second definition (lines 289-297),
transcribed from its own source lines. -/
def AttackDataset.getitem₂ (ds : AttackDataset) (index : Nat) :
    Option (Img × Nat × (Nat × Nat) × String) :=
  (ds.samples[index]?).map (fun pt =>
    let path := pt.1
    let target := pt.2
    let sample := ds.loader path
    let image_size := sample.size
    let image_name := image_name_of path
    let sample := match ds.transform with
      | some t => t sample
      | none => sample
    (sample, target, image_size, image_name))

/-! ## DatasetAttacker (lines 253-282) -/

structure DatasetAttacker where
  image_path : String
  target_path : String
  /-- The external attack function; `none` models a raise. -/
  attacker : List Img → List Nat → Option (List Img)
  input_size : Nat × Nat
  dataset : AttackDataset

/-- `DatasetAttacker.__init__` (lines 254-262): builds the dataset with
`pre_attack_transform` (resize to `input_size`, default `[224,224]`,
then `ToTensor`). -/
def mkDatasetAttacker (image_path target_path : String)
    (attacker : List Img → List Nat → Option (List Img))
    (input_size : Nat × Nat) (samples : List (String × Nat))
    (class_to_idx : List (String × Nat)) (loader : String → Img) :
    DatasetAttacker :=
  { image_path := image_path
    target_path := target_path
    attacker := attacker
    input_size := input_size
    dataset :=
      { samples := samples
        class_to_idx := class_to_idx
        loader := loader
        transform := some (preAttackTransform input_size) } }

/-- One step of `DatasetAttacker.save` (lines 272-282): convert the
tensor back to an image, resize to the recorded native size, look up the
class name (a missing label raises, hence `Option`), create the class
directory, and write `<target_path>/<class_name>/<image_name>` —
overwriting silently. -/
def DatasetAttacker.saveOne (da : DatasetAttacker) (fs : FileSystem)
    (image : Img) (label : Nat) (image_size : Nat × Nat)
    (image_name : String) : Option FileSystem :=
  let x := toPILImage image
  let x := x.resize image_size
  (da.dataset.idx_to_class label).map (fun class_name =>
    let target_path := pathJoin da.target_path class_name
    let fs := fs.makedirs target_path
    fs.writeFile (pathJoin target_path image_name) x)

/-- Python `zip` over four sequences: truncates to the shortest. -/
def zip4 {α β γ δ : Type} (as : List α) (bs : List β) (cs : List γ)
    (ds : List δ) : List (α × β × γ × δ) :=
  ((as.zip bs).zip (cs.zip ds)).map (fun p =>
    (p.1.1, p.1.2, p.2.1, p.2.2))

/-- `DatasetAttacker.save` (lines 272-282): iterate the zipped batch and
save each item in order. -/
def DatasetAttacker.save (da : DatasetAttacker) (fs : FileSystem)
    (images : List Img) (labels : List Nat)
    (image_sizes : List (Nat × Nat)) (image_names : List String) :
    Option FileSystem :=
  (zip4 images labels image_sizes image_names).foldlM
    (fun fs item => da.saveOne fs item.1 item.2.1 item.2.2.1 item.2.2.2)
    fs

/-- One batch as delivered by the dataloader to the attack loop. -/
structure Batch where
  images : List Img
  labels : List Nat
  image_sizes : List (Nat × Nat)
  image_names : List String

/-- The body of the loop in `DatasetAttacker.attack` (lines 267-270):
invoke the external attack function on the batch, then save the
perturbed images.  `none` models an uncaught exception (either the
attack function raising or a failed class lookup during save). -/
def DatasetAttacker.processBatch (da : DatasetAttacker) (fs : FileSystem)
    (b : Batch) : Option FileSystem :=
  (da.attacker b.images b.labels).bind (fun adv_images =>
    da.save fs adv_images b.labels b.image_sizes b.image_names)

/-- Sequential processing of a list of batches, threading the
filesystem. -/
def DatasetAttacker.processBatches (da : DatasetAttacker)
    (fs : FileSystem) (batches : List Batch) : Option FileSystem :=
  batches.foldlM da.processBatch fs

/-- Outcome of an attack run: either all batches completed, or the run
aborted with the filesystem as it stood when the exception was raised. -/
inductive RunOutcome where
  | completed (fs : FileSystem)
  | aborted (fs : FileSystem)
  deriving Repr, DecidableEq

/-- The loop of `DatasetAttacker.attack` (lines 267-270): batches are
processed in order; an exception aborts the run immediately, leaving the
filesystem exactly as the completed earlier batches left it. -/
def DatasetAttacker.attackRun (da : DatasetAttacker) (fs : FileSystem) :
    List Batch → RunOutcome
  | [] => .completed fs
  | b :: rest =>
    match da.processBatch fs b with
    | none => .aborted fs
    | some fs' => da.attackRun fs' rest

end DataUtils

namespace DataUtils

/-! ## Claim C10 -/

/-- C10: for every index at which `CIFAR10_1.__getitem__` succeeds, the
returned class label is the constant 10, regardless of the stored data and
of the transform — a label outside CIFAR-10's 0-9 range. -/
theorem cifar10_1_label_constant_ten {α β : Type} (ds : CIFAR10_1 α β)
    (index : Nat) (s : α ⊕ β) (lab : Nat)
    (h : ds.getitem index = some (s, lab)) : lab = 10 ∧ ¬ lab ≤ 9 := by
  unfold CIFAR10_1.getitem at h
  rcases hd : ds.data[index]? with _ | sample
  · rw [hd] at h; simp at h
  · rw [hd] at h
    rcases ht : ds.transform with _ | t <;> rw [ht] at h <;>
      simp_all <;> omega

theorem cifar10_1_label_constant_ten_witness :
    CIFAR10_1.getitem (α := Nat) (β := Nat)
        { transform := none, data := [7] } 0 = some (Sum.inl 7, 10) ∧
      (10 : Nat) = 10 ∧ ¬ (10 : Nat) ≤ 9 := by
  refine ⟨rfl, cifar10_1_label_constant_ten (α := Nat) (β := Nat)
    { transform := none, data := [7] } 0 (Sum.inl 7) 10 rfl⟩

/-! ## Claim C1 -/

/-- C1, counterexample: the claim states the query source draws
max(S) × R samples in both data modules, but in the ImageNet module with
sizes [10] and repeat count 2 the query sampler draws 60 = 3 × 10 × 2
samples, not 10 × 2 = 20. -/
theorem mmd_query_draw_count_cex :
    (imagenetMMDTestLoaders [10] 2).map (fun L => L.q.sampler.num_samples)
        = some 60 ∧ (60 : Nat) ≠ 10 * 2 := by
  exact ⟨rfl, by decide⟩

/-- C1, amended: with a nonempty size list of maximum `m` and repeat count
`R`, the CIFAR module draws `m * R` for the query stream and `3 * (m * R)`
for the reference stream, while the ImageNet module draws `3 * (m * R)`
for both streams. -/
theorem mmd_draw_counts (sizes : List Nat) (R m : Nat)
    (h : pymax sizes = some m) :
    (∃ L, cifarMMDTestLoaders sizes R = some L ∧
        L.q.sampler.num_samples = m * R ∧
        L.s.sampler.num_samples = 3 * (m * R)) ∧
    (∃ L, imagenetMMDTestLoaders sizes R = some L ∧
        L.q.sampler.num_samples = 3 * (m * R) ∧
        L.s.sampler.num_samples = 3 * (m * R)) := by
  constructor
  · exact ⟨_, by rw [cifarMMDTestLoaders, h]; rfl, rfl, rfl⟩
  · exact ⟨_, by rw [imagenetMMDTestLoaders, h]; rfl, rfl, rfl⟩

theorem mmd_draw_counts_witness :
    pymax [10] = some 10 ∧
    ((∃ L, cifarMMDTestLoaders [10] 2 = some L ∧
        L.q.sampler.num_samples = 10 * 2 ∧
        L.s.sampler.num_samples = 3 * (10 * 2)) ∧
     (∃ L, imagenetMMDTestLoaders [10] 2 = some L ∧
        L.q.sampler.num_samples = 3 * (10 * 2) ∧
        L.s.sampler.num_samples = 3 * (10 * 2))) :=
  ⟨rfl, mmd_draw_counts [10] 2 10 rfl⟩

/-! ## Claim C4 -/

/-- C4: every stream of the MMD test-set construction (both data modules)
uses a with-replacement sampler, and every stream of the CADeT test-set
construction uses a without-replacement sampler. -/
theorem sampling_policy_by_mode (sizes : List Nat) (R n : Nat) :
    (∀ L, cifarMMDTestLoaders sizes R = some L →
        L.s.sampler.replacement = true ∧ L.q.sampler.replacement = true) ∧
    (∀ L, imagenetMMDTestLoaders sizes R = some L →
        L.s.sampler.replacement = true ∧ L.q.sampler.replacement = true) ∧
    (∀ e ∈ imagenetCADeTTestLoaders n, e.2.sampler.replacement = false) := by
  refine ⟨fun L hL => ?_, fun L hL => ?_, fun e he => ?_⟩
  · unfold cifarMMDTestLoaders at hL
    rcases hm : pymax sizes with _ | m
    · rw [hm] at hL; simp at hL
    · rw [hm] at hL
      simp only [Option.map_some', Option.some.injEq] at hL
      rw [← hL]
      exact ⟨rfl, rfl⟩
  · unfold imagenetMMDTestLoaders at hL
    rcases hm : pymax sizes with _ | m
    · rw [hm] at hL; simp at hL
    · rw [hm] at hL
      simp only [Option.map_some', Option.some.injEq] at hL
      rw [← hL]
      exact ⟨rfl, rfl⟩
  · unfold imagenetCADeTTestLoaders at he
    simp at he
    rcases he with h | h | h | h | h | h <;> rw [h]

theorem sampling_policy_by_mode_witness :
    (∃ L, cifarMMDTestLoaders [10] 2 = some L ∧
      L.s.sampler.replacement = true ∧ L.q.sampler.replacement = true) ∧
    (∃ L, imagenetMMDTestLoaders [10] 2 = some L ∧
      L.s.sampler.replacement = true ∧ L.q.sampler.replacement = true) ∧
    (∀ e ∈ imagenetCADeTTestLoaders 5, e.2.sampler.replacement = false) := by
  have h := sampling_policy_by_mode [10] 2 5
  exact ⟨⟨_, rfl, h.1 _ rfl⟩, ⟨_, rfl, h.2.1 _ rfl⟩, h.2.2⟩

/-! ## Helper lemmas -/

theorem minStreamLen_le {β : Type} :
    ∀ (streams : List (String × List β)), ∀ s ∈ streams,
      minStreamLen streams ≤ s.2.length
  | [], s, hs => absurd hs (List.not_mem_nil s)
  | [t], s, hs => by
    simp only [List.mem_singleton] at hs
    subst hs
    simp [minStreamLen]
  | t :: u :: rest, s, hs => by
    rcases List.mem_cons.mp hs with h | h
    · subst h
      simp only [minStreamLen]
      exact min_le_left _ _
    · exact le_trans (min_le_right _ _) (minStreamLen_le (u :: rest) s h)

theorem filterMap_all_some {α γ : Type} (f : α → Option γ) :
    ∀ (l : List α), (∀ a ∈ l, (f a).isSome) →
      (l.filterMap f).length = l.length ∧
      ∀ (j : Nat) (a : α), l[j]? = some a → ∃ c, f a = some c ∧
        (l.filterMap f)[j]? = some c := by
  intro l
  induction l with
  | nil => intro _; exact ⟨rfl, fun j a h => by simp at h⟩
  | cons x xs ih =>
    intro hall
    obtain ⟨c, hc⟩ := Option.isSome_iff_exists.mp
      (hall x (List.mem_cons_self x xs))
    have hrest := ih (fun a ha => hall a (List.mem_cons_of_mem x ha))
    have hfm : (x :: xs).filterMap f = c :: xs.filterMap f := by
      simp [List.filterMap_cons, hc]
    refine ⟨by simp [hfm, hrest.1], fun j a hj => ?_⟩
    cases j with
    | zero =>
      simp at hj
      subst hj
      exact ⟨c, hc, by simp [hfm]⟩
    | succ j =>
      simp at hj
      obtain ⟨d, hd, hidx⟩ := hrest.2 j a hj
      exact ⟨d, hd, by simp [hfm]; exact hidx⟩

theorem readFile_writeFile (fs : FileSystem) (p : String) (x : Img) :
    (fs.writeFile p x).readFile p = some x := by
  simp [FileSystem.writeFile, FileSystem.readFile, List.find?]

theorem mem_dirs_makedirs (fs : FileSystem) (p : String) :
    p ∈ (fs.makedirs p).dirs := by
  unfold FileSystem.makedirs
  by_cases h : p ∈ fs.dirs
  · rw [if_pos h]; exact h
  · rw [if_neg h]; exact List.mem_cons_self p fs.dirs

/-! ## Claim C2 -/

/-- C2: the combined multi-source iterator advances all named streams
together one step at a time — the `i`-th group has one entry per stream,
its `j`-th entry pairing the `j`-th stream's name with that stream's
`i`-th batch — and yields exactly as many groups as the shortest stream
has batches, then terminates. -/
theorem combined_loader_lockstep {β : Type}
    (streams : List (String × List β)) :
    (combinedLoaderGroups streams).length = minStreamLen streams ∧
    ∀ (i : Nat) (g : List (String × β)),
      (combinedLoaderGroups streams)[i]? = some g →
      g.length = streams.length ∧
      ∀ (j : Nat) (s : String × List β), streams[j]? = some s →
        ∃ b, s.2[i]? = some b ∧ g[j]? = some (s.1, b) := by
  constructor
  · simp [combinedLoaderGroups]
  · intro i g hg
    unfold combinedLoaderGroups at hg
    rw [List.getElem?_map] at hg
    rcases hri : (List.range (minStreamLen streams))[i]? with _ | i'
    · rw [hri] at hg; simp at hg
    · rw [hri] at hg
      simp at hg
      have hi : i < minStreamLen streams := by
        by_contra hlt
        rw [List.getElem?_eq_none (by simpa using Nat.le_of_not_lt hlt)]
          at hri
        exact Option.noConfusion hri
      have hi' : i' = i := by
        rw [List.getElem?_range hi] at hri
        exact (Option.some.injEq _ _).mp hri.symm
      rw [hi'] at hg
      have hall : ∀ s ∈ streams,
          ((s.2[i]?).map (fun b => (s.1, b))).isSome := by
        intro s hs
        have := minStreamLen_le streams s hs
        have : i < s.2.length := lt_of_lt_of_le hi this
        simp [List.getElem?_eq_getElem this]
      obtain ⟨hlen, hidx⟩ := filterMap_all_some _ streams hall
      subst hg
      refine ⟨hlen, fun j s hj => ?_⟩
      obtain ⟨c, hc, hgc⟩ := hidx j s hj
      rcases hb : s.2[i]? with _ | b
      · rw [hb] at hc; simp at hc
      · rw [hb] at hc
        simp at hc
        exact ⟨b, rfl, by rw [hgc, ← hc]⟩

theorem combined_loader_lockstep_witness :
    (combinedLoaderGroups
        [("A", List.range 10), ("B", List.range 7)]).length = 7 ∧
    ∃ g, (combinedLoaderGroups
        [("A", List.range 10), ("B", List.range 7)])[0]? = some g ∧
      g.length = 2 ∧ ∃ b, (List.range 7)[0]? = some b ∧
        g[1]? = some ("B", b) := by
  have h := combined_loader_lockstep
    [("A", List.range 10), ("B", List.range 7)]
  refine ⟨h.1.trans (by decide), ?_⟩
  refine ⟨[("A", 0), ("B", 0)], by decide, ?_⟩
  have hg := h.2 0 [("A", 0), ("B", 0)] (by decide)
  exact ⟨hg.1, hg.2 1 ("B", List.range 7) (by decide)⟩

/-! ## Claim C3 -/

/-- C3: a without-replacement draw from a collection of `n` indices
(shuffled into `perm` by the random source) never returns a duplicate
index within one draw, and a request for more samples than the
collection's size fails with `InsufficientSamplesError` instead of
returning indices. -/
theorem draw_without_replacement_spec (perm : List Nat) (n count : Nat)
    (hperm : perm.Perm (List.range n)) :
    (count ≤ n → ∃ ixs, drawWithoutReplacement perm count = .ok ixs ∧
      ixs.Nodup ∧ ixs.length = count ∧ ∀ i ∈ ixs, i < n) ∧
    (n < count →
      drawWithoutReplacement perm count
        = .error .insufficientSamples) := by
  have hlen : perm.length = n := by
    simpa using hperm.length_eq
  have hnd : perm.Nodup := hperm.nodup_iff.mpr (List.nodup_range n)
  constructor
  · intro hle
    refine ⟨perm.take count, ?_, ?_, ?_, ?_⟩
    · unfold drawWithoutReplacement
      rw [if_neg (by omega)]
    · exact hnd.sublist (List.take_sublist count perm)
    · simp [hlen, hle]
    · intro i hi
      have : i ∈ perm := List.mem_of_mem_take hi
      have : i ∈ List.range n := hperm.mem_iff.mp this
      simpa using this
  · intro hgt
    unfold drawWithoutReplacement
    rw [if_pos (by omega)]

theorem draw_without_replacement_witness :
    (List.range 50).Perm (List.range 50) ∧ 50 < 100 ∧
    drawWithoutReplacement (List.range 50) 100
      = .error .insufficientSamples := by
  refine ⟨List.Perm.refl _, by decide, ?_⟩
  exact (draw_without_replacement_spec (List.range 50) 50 100
    (List.Perm.refl _)).2 (by decide)

/-! ## Claim C8 -/

/-- C8: in the attack loops, when `num_samples` is given the processed
indices are a without-replacement draw (no duplicates, all within the
collection) from the random source's shuffle, and when `num_samples` is
`None` every index of the collection is visited exactly once in
collection order. -/
theorem attack_index_selection (perm : List Nat) (n : Nat)
    (hperm : perm.Perm (List.range n)) :
    attackSelectIndices perm n none = List.range n ∧
    ∀ k, (attackSelectIndices perm n (some k)).Nodup ∧
      ∀ i ∈ attackSelectIndices perm n (some k), i < n := by
  have hnd : perm.Nodup := hperm.nodup_iff.mpr (List.nodup_range n)
  refine ⟨rfl, fun k => ⟨?_, fun i hi => ?_⟩⟩
  · exact hnd.sublist (List.take_sublist k perm)
  · have : i ∈ perm := List.mem_of_mem_take hi
    have : i ∈ List.range n := hperm.mem_iff.mp this
    simpa using this

theorem attack_index_selection_witness :
    ([2, 0, 1] : List Nat).Perm (List.range 3) ∧
    attackSelectIndices [2, 0, 1] 3 none = List.range 3 ∧
    (attackSelectIndices [2, 0, 1] 3 (some 2)).Nodup ∧
    ∀ i ∈ attackSelectIndices [2, 0, 1] 3 (some 2), i < 3 := by
  have hp : ([2, 0, 1] : List Nat).Perm (List.range 3) := by decide
  have h := attack_index_selection [2, 0, 1] 3 hp
  exact ⟨hp, h.1, (h.2 2).1, (h.2 2).2⟩

/-! ## Claim C9 -/

/-- C9: the two `AttackDataset` class definitions in the source are
extensionally equal — on every dataset and index both `__getitem__`
definitions return the same `(sample, target, image_size, image_name)`
tuple, and both build the same `idx_to_class` mapping — so a single
definition suffices. -/
theorem attack_dataset_definitions_equal (ds : AttackDataset) :
    (∀ index, ds.getitem index = ds.getitem₂ index) ∧
    (∀ k, ds.idx_to_class k = ds.idx_to_class₂ k) :=
  ⟨fun _ => rfl, fun _ => rfl⟩

/-! ## Claim C5 -/

/-- C5: for every image processed by the resizing attack pipeline, the
native pixel size `(W,H)` is recorded from the decoded source image
before the pre-attack resize to `(224,224)` (the tensor handed to the
attack has size `(224,224)`), and whatever perturbed image the attack
returns, the image the save step writes has size exactly `(W,H)`. -/
theorem saved_image_has_native_size (da : DatasetAttacker) (index : Nat)
    (path : String) (target : Nat)
    (h224 : da.input_size = (224, 224))
    (htr : da.dataset.transform = some (preAttackTransform da.input_size))
    (hidx : da.dataset.samples[index]? = some (path, target)) :
    ∃ sample size name,
      da.dataset.getitem index = some (sample, target, size, name) ∧
      size = (da.dataset.loader path).size ∧
      sample.size = (224, 224) ∧
      ∀ fs adv fs', da.saveOne fs adv target size name = some fs' →
        ∃ p, fs'.readFile p = some ((toPILImage adv).resize size) ∧
          ((toPILImage adv).resize size).size = size := by
  refine ⟨preAttackTransform da.input_size (da.dataset.loader path),
    (da.dataset.loader path).size, image_name_of path, ?_, rfl, ?_, ?_⟩
  · unfold AttackDataset.getitem
    rw [hidx]
    simp [htr]
  · rw [h224]; rfl
  · intro fs adv fs' hsave
    unfold DatasetAttacker.saveOne at hsave
    rcases hcls : da.dataset.idx_to_class target with _ | cls
    · rw [hcls] at hsave; simp at hsave
    · rw [hcls] at hsave
      simp at hsave
      refine ⟨pathJoin (pathJoin da.target_path cls) (image_name_of path),
        ?_, rfl⟩
      rw [← hsave]
      exact readFile_writeFile _ _ _

theorem saved_image_has_native_size_witness :
    (mkDatasetAttacker "in" "out" (fun imgs _ => some imgs) (224, 224)
        [("a/b.png", 0)] [("c0", 0)]
        (fun _ => { size := (640, 480), pix := [1] })).input_size
      = (224, 224) ∧
    (mkDatasetAttacker "in" "out" (fun imgs _ => some imgs) (224, 224)
        [("a/b.png", 0)] [("c0", 0)]
        (fun _ => { size := (640, 480), pix := [1] })).dataset.transform
      = some (preAttackTransform (224, 224)) ∧
    (mkDatasetAttacker "in" "out" (fun imgs _ => some imgs) (224, 224)
        [("a/b.png", 0)] [("c0", 0)]
        (fun _ => { size := (640, 480), pix := [1] })).dataset.samples[0]?
      = some ("a/b.png", 0) ∧
    ∃ sample size name,
      (mkDatasetAttacker "in" "out" (fun imgs _ => some imgs) (224, 224)
          [("a/b.png", 0)] [("c0", 0)]
          (fun _ => { size := (640, 480), pix := [1] })).dataset.getitem 0
        = some (sample, 0, size, name) ∧
      size = (640, 480) ∧ sample.size = (224, 224) ∧
      ∀ fs adv fs',
        (mkDatasetAttacker "in" "out" (fun imgs _ => some imgs) (224, 224)
            [("a/b.png", 0)] [("c0", 0)]
            (fun _ => { size := (640, 480), pix := [1] })).saveOne
            fs adv 0 size name = some fs' →
        ∃ p, fs'.readFile p = some ((toPILImage adv).resize size) ∧
          ((toPILImage adv).resize size).size = size := by
  refine ⟨rfl, rfl, rfl, ?_⟩
  obtain ⟨sample, size, name, h1, h2, h3, h4⟩ :=
    saved_image_has_native_size
      (mkDatasetAttacker "in" "out" (fun imgs _ => some imgs) (224, 224)
        [("a/b.png", 0)] [("c0", 0)]
        (fun _ => { size := (640, 480), pix := [1] }))
      0 "a/b.png" 0 rfl rfl rfl
  exact ⟨sample, size, name, h1, h2, h3, h4⟩

/-! ## Claim C6 -/

/-- C6: the file name carried through the pipeline equals the source
image's file name (the last path component), and the save step writes
exactly at `<destination_root>/<class_name_of(label)>/<file_name>`,
creating the class subdirectory if absent; the write succeeds for every
prior filesystem state and the stored content is the new image, so a
pre-existing file at that path is overwritten silently. -/
theorem save_file_identity (da : DatasetAttacker) (index : Nat)
    (path : String) (target : Nat) (cls : String)
    (hidx : da.dataset.samples[index]? = some (path, target))
    (hcls : da.dataset.idx_to_class target = some cls) :
    ∃ sample size name,
      da.dataset.getitem index = some (sample, target, size, name) ∧
      name = image_name_of path ∧
      ∀ fs adv, ∃ fs',
        da.saveOne fs adv target size name = some fs' ∧
        pathJoin da.target_path cls ∈ fs'.dirs ∧
        fs'.readFile (pathJoin (pathJoin da.target_path cls) name)
          = some ((toPILImage adv).resize size) := by
  refine ⟨(match da.dataset.transform with
    | some t => t (da.dataset.loader path)
    | none => da.dataset.loader path),
    (da.dataset.loader path).size, image_name_of path, ?_, rfl, ?_⟩
  · unfold AttackDataset.getitem
    rw [hidx]
    rfl
  · intro fs adv
    refine ⟨((fs.makedirs (pathJoin da.target_path cls)).writeFile
      (pathJoin (pathJoin da.target_path cls) (image_name_of path))
      ((toPILImage adv).resize (da.dataset.loader path).size)), ?_, ?_, ?_⟩
    · unfold DatasetAttacker.saveOne
      rw [hcls]
      rfl
    · exact mem_dirs_makedirs fs (pathJoin da.target_path cls)
    · exact readFile_writeFile _ _ _

theorem save_file_identity_witness :
    (mkDatasetAttacker "in" "out" (fun imgs _ => some imgs) (224, 224)
        [("a/b.png", 0)] [("c0", 0)]
        (fun _ => { size := (640, 480), pix := [1] })).dataset.samples[0]?
      = some ("a/b.png", 0) ∧
    (mkDatasetAttacker "in" "out" (fun imgs _ => some imgs) (224, 224)
        [("a/b.png", 0)] [("c0", 0)]
        (fun _ => { size := (640, 480), pix := [1] })).dataset.idx_to_class 0
      = some "c0" ∧
    ∃ sample size name,
      (mkDatasetAttacker "in" "out" (fun imgs _ => some imgs) (224, 224)
          [("a/b.png", 0)] [("c0", 0)]
          (fun _ => { size := (640, 480), pix := [1] })).dataset.getitem 0
        = some (sample, 0, size, name) ∧
      name = image_name_of "a/b.png" ∧
      ∀ fs adv, ∃ fs',
        (mkDatasetAttacker "in" "out" (fun imgs _ => some imgs) (224, 224)
            [("a/b.png", 0)] [("c0", 0)]
            (fun _ => { size := (640, 480), pix := [1] })).saveOne
            fs adv 0 size name = some fs' ∧
        pathJoin "out" "c0" ∈ fs'.dirs ∧
        fs'.readFile (pathJoin (pathJoin "out" "c0") name)
          = some ((toPILImage adv).resize size) := by
  refine ⟨rfl, rfl, ?_⟩
  exact save_file_identity
    (mkDatasetAttacker "in" "out" (fun imgs _ => some imgs) (224, 224)
      [("a/b.png", 0)] [("c0", 0)]
      (fun _ => { size := (640, 480), pix := [1] }))
    0 "a/b.png" 0 "c0" rfl rfl

/-! ## Claim C7 -/

/-- C7: if the external attack function raises on some batch, the attack
run aborts immediately — the resulting filesystem is exactly the one the
earlier, completed batches produced, so no file from the failing batch or
from any later batch is written, while files from earlier batches remain
(no retry, no partial-batch salvage). -/
theorem attack_aborts_on_failure (da : DatasetAttacker)
    (pre post : List Batch) (b : Batch) (fs fs' : FileSystem)
    (hpre : da.processBatches fs pre = some fs')
    (hfail : da.attacker b.images b.labels = none) :
    da.attackRun fs (pre ++ b :: post) = .aborted fs' := by
  induction pre generalizing fs with
  | nil =>
    unfold DatasetAttacker.processBatches at hpre
    rw [List.foldlM_nil] at hpre
    simp only [Option.pure_def, Option.some.injEq] at hpre
    subst hpre
    simp [DatasetAttacker.attackRun, DatasetAttacker.processBatch, hfail]
  | cons b0 rest ih =>
    unfold DatasetAttacker.processBatches at hpre
    rw [List.foldlM_cons] at hpre
    rcases h0 : da.processBatch fs b0 with _ | fs1
    · rw [h0] at hpre; simp at hpre
    · rw [h0] at hpre
      have hpre' : da.processBatches fs1 rest = some fs' := hpre
      have hres := ih fs1 hpre'
      rw [List.cons_append, DatasetAttacker.attackRun, h0]
      exact hres

theorem attack_aborts_on_failure_witness :
    (mkDatasetAttacker "in" "out"
        (fun imgs labs => if labs = [1] then none else some imgs)
        (224, 224) [("a/b.png", 0)] [("c0", 0), ("c1", 1)]
        (fun _ => { size := (4, 4), pix := [0] })).processBatches
        { files := [], dirs := [] }
        [{ images := [{ size := (4, 4), pix := [0] }], labels := [0],
           image_sizes := [(4, 4)], image_names := ["a.png"] }]
      = some { files := [(pathJoin (pathJoin "out" "c0") "a.png",
                 { size := (4, 4), pix := [0] })],
               dirs := [pathJoin "out" "c0"] } ∧
    (mkDatasetAttacker "in" "out"
        (fun imgs labs => if labs = [1] then none else some imgs)
        (224, 224) [("a/b.png", 0)] [("c0", 0), ("c1", 1)]
        (fun _ => { size := (4, 4), pix := [0] })).attacker
        [{ size := (4, 4), pix := [0] }] [1] = none ∧
    (mkDatasetAttacker "in" "out"
        (fun imgs labs => if labs = [1] then none else some imgs)
        (224, 224) [("a/b.png", 0)] [("c0", 0), ("c1", 1)]
        (fun _ => { size := (4, 4), pix := [0] })).attackRun
        { files := [], dirs := [] }
        ([{ images := [{ size := (4, 4), pix := [0] }], labels := [0],
            image_sizes := [(4, 4)], image_names := ["a.png"] }] ++
          { images := [{ size := (4, 4), pix := [0] }], labels := [1],
            image_sizes := [(4, 4)], image_names := ["b.png"] } ::
          [{ images := [{ size := (4, 4), pix := [0] }], labels := [0],
             image_sizes := [(4, 4)], image_names := ["c.png"] }])
      = .aborted { files := [(pathJoin (pathJoin "out" "c0") "a.png",
                     { size := (4, 4), pix := [0] })],
                   dirs := [pathJoin "out" "c0"] } := by
  refine ⟨rfl, rfl, ?_⟩
  exact attack_aborts_on_failure
    (mkDatasetAttacker "in" "out"
      (fun imgs labs => if labs = [1] then none else some imgs)
      (224, 224) [("a/b.png", 0)] [("c0", 0), ("c1", 1)]
      (fun _ => { size := (4, 4), pix := [0] }))
    [{ images := [{ size := (4, 4), pix := [0] }], labels := [0],
       image_sizes := [(4, 4)], image_names := ["a.png"] }]
    [{ images := [{ size := (4, 4), pix := [0] }], labels := [0],
       image_sizes := [(4, 4)], image_names := ["c.png"] }]
    { images := [{ size := (4, 4), pix := [0] }], labels := [1],
      image_sizes := [(4, 4)], image_names := ["b.png"] }
    { files := [], dirs := [] }
    { files := [(pathJoin (pathJoin "out" "c0") "a.png",
        { size := (4, 4), pix := [0] })],
      dirs := [pathJoin "out" "c0"] }
    rfl rfl

end DataUtils
